import Mathlib

/-!
# RATSnest: measurement extraction, key-binding and policy evaluation

Shallow embedding, in Lean 4, of the verification core of the RATSnest TDX
remote-attestation proof of concept, together with theorems settling the
frozen claims about its specification.

The embedding covers:
* `shared/policy.ts`: hex normalization, the `MRTDPolicy` table,
  `isMRTDAllowed`, `isRTMRAllowed`, `parseIMALog`, `verifyIMAMeasurements`
  and `verifyMeasurements`;
* `backend/tdx.ts`: `padReportData`, `extractMRTD`, `extractRTMRs` and the
  provider check of `getQuoteViaConfigFS`;
* `backend/tunnel.ts`: the report-data binder
  `SHA-512(nonce || iat || x25519_pubkey)` and the two generations of the
  tunnel server's `getQuote`;
* `frontend/src/App.tsx`: the client-side `verifyTdxQuote` gate.

JavaScript strings become `String`, `Uint8Array` becomes `List Nat` with
byte values reduced modulo 256 where they are produced, optional fields
become `Option`, thrown exceptions become `Except String`.  Effectful
inputs (the ConfigFS files, the fetched IMA log, the TDX device) are passed
in explicitly as values or as result-valued functions.
-/

namespace RATSnest

/-! ## Hex / byte codec

`bytesToHex` appears in `backend/tdx.ts`, `backend/tunnel.ts` and
`frontend/src/App.tsx`:
`'0x' + Array.from(bytes).map(b => b.toString(16).padStart(2, '0')).join('')`.
For a byte value `b < 256`, `b.toString(16).padStart(2, '0')` is exactly the
two lowercase hex digits of `b`. -/

/-- The lowercase hex digit for `n < 16` (as produced by JS `toString(16)`). -/
def hexDigitChar (n : Nat) : Char :=
  if n < 10 then Char.ofNat (48 + n) else Char.ofNat (87 + n)

/-- Two-digit lowercase hex rendering of one byte,
JS `b.toString(16).padStart(2, '0')` for `b < 256`. -/
def byteToHexPad2 (b : Nat) : String :=
  String.mk [hexDigitChar (b / 16 % 16), hexDigitChar (b % 16)]

/-- `'0x' + bytes.map(two hex digits).join('')`. -/
def bytesToHex (bs : List Nat) : String :=
  "0x" ++ String.join (bs.map byteToHexPad2)

/-! ## `shared/policy.ts` -/

/-- The policy table of `shared/policy.ts` (`interface MRTDPolicy`).
Optional TS fields become `Option`; the record
`expected_ima_measurements` becomes an association list in insertion
order (JS `Object.entries` enumerates string keys in insertion order). -/
structure MRTDPolicy where
  allowed_mrtd : List String
  allowed_rtmr1 : Option (List String) := none
  allowed_rtmr2 : Option (List String) := none
  allowed_rtmr3 : Option (List String) := none
  expected_ima_measurements : Option (List (String × String)) := none
  min_tcb_version : Option String := none
  deriving Repr, DecidableEq

/-- Drop a single leading `0x` / `0X` from a character list. -/
def dropLeading0xList : List Char → List Char
  | c0 :: c1 :: rest =>
    if c0 = '0' ∧ (c1 = 'x' ∨ c1 = 'X') then rest else c0 :: c1 :: rest
  | l => l

/-- Drop a single leading `0x` / `0X`, JS `s.replace(/^0x/i, '')`. -/
def dropLeading0x (s : String) : String :=
  String.mk (dropLeading0xList s.data)

/-- ASCII lowercasing of a string, JS `s.toLowerCase()` (the measurement
strings handled by the policy module are ASCII hex). -/
def lowerStr (s : String) : String :=
  String.mk (s.data.map Char.toLower)

/-- `normalizeMeasurement(measurement)`:
`measurement.replace(/^0x/i, '').toLowerCase()`. -/
def normalizeMeasurement (measurement : String) : String :=
  lowerStr (dropLeading0x measurement)

/-- `isMRTDAllowed(mrtd)`, with the module-level `policy` singleton made an
explicit parameter: some allow-list entry normalizes to the normalized
candidate. -/
def isMRTDAllowed (policy : MRTDPolicy) (mrtd : String) : Bool :=
  policy.allowed_mrtd.any
    (fun allowed => normalizeMeasurement allowed = normalizeMeasurement mrtd)

/-- The `policy[`allowed_rtmr${rtmrNumber}`]` lookup of `isRTMRAllowed`.
In TS `rtmrNumber` has type `1 | 2 | 3`; other indices are unrepresentable
there and mapped to `none` here. -/
def rtmrAllowedValues (policy : MRTDPolicy) (rtmrNumber : Nat) :
    Option (List String) :=
  match rtmrNumber with
  | 1 => policy.allowed_rtmr1
  | 2 => policy.allowed_rtmr2
  | 3 => policy.allowed_rtmr3
  | _ => none

/-- `isRTMRAllowed(rtmr, rtmrNumber)`: `true` when the register's allow-list
is absent or empty, otherwise an equality-after-normalization scan. -/
def isRTMRAllowed (policy : MRTDPolicy) (rtmr : String) (rtmrNumber : Nat) :
    Bool :=
  match rtmrAllowedValues policy rtmrNumber with
  | none => true
  | some allowedValues =>
    if allowedValues.isEmpty then true
    else allowedValues.any
      (fun allowed => normalizeMeasurement allowed = normalizeMeasurement rtmr)

/-! ### IMA log parsing (`parseIMALog`) -/

/-- Whitespace for the JS regex `\s` (ASCII part; IMA logs are ASCII). -/
def isJsWhitespace (c : Char) : Bool :=
  c = ' ' ∨ c = '\t' ∨ c = '\n' ∨ c = '\r' ∨ c = Char.ofNat 11 ∨ c = Char.ofNat 12

/-- JS `s.trim()`: drop whitespace from both ends. -/
def jsTrim (s : String) : String :=
  String.mk
    (((s.data.dropWhile isJsWhitespace).reverse.dropWhile isJsWhitespace).reverse)

/-- JS `s.startsWith(t)`. -/
def jsStartsWith (s t : String) : Bool :=
  t.data.isPrefixOf s.data

/-- JS `s.split(sep)` for a one-character separator `sep`. -/
def jsSplitChar (s : String) (sep : Char) : List String :=
  (s.data.splitOnP (fun c => c = sep)).map String.mk

/-- The whitespace-separated tokens of a line,
JS `line.trim().split(/\s+/)` (for a line whose trim is non-empty). -/
def splitWs (s : String) : List String :=
  ((s.data.splitOnP isJsWhitespace).filter (fun t => t ≠ [])).map String.mk

/-- JS `parseInt(s, 10)`: optional sign then leading decimal digits;
`none` models `NaN`. -/
def jsParseIntDec (s : String) : Option Int :=
  let signAndRest : Int × List Char :=
    match s.data with
    | '-' :: r => (-1, r)
    | '+' :: r => (1, r)
    | r => (1, r)
  let digits := signAndRest.2.takeWhile Char.isDigit
  if digits = [] then none
  else some (signAndRest.1 *
    (digits.foldl (fun a c => a * 10 + ((c.toNat : Int) - 48)) 0))

/-- One parsed IMA log line (`interface IMAEntry`).
`pcr` is `parseInt(parts[0], 10)` with `none` for `NaN`. -/
structure IMAEntry where
  pcr : Option Int
  templateHash : String
  templateName : String
  fileHash : String
  filePath : String
  deriving Repr, DecidableEq

/-- The per-line body of `parseIMALog`: lines with fewer than 5
whitespace-separated fields yield `null`; the file path is
`parts.slice(4).join(' ')`. -/
def parseIMALine (line : String) : Option IMAEntry :=
  match splitWs line with
  | p0 :: p1 :: p2 :: p3 :: rest =>
    if rest = [] then none
    else some { pcr := jsParseIntDec p0, templateHash := p1,
                templateName := p2, fileHash := p3,
                filePath := " ".intercalate rest }
  | _ => none

/-- `parseIMALog(log)`: split on newlines, drop blank lines, parse each
line, drop `null` results. -/
def parseIMALog (log : String) : List IMAEntry :=
  ((jsSplitChar log '\n').filter (fun line => jsTrim line ≠ "")).filterMap
    parseIMALine

/-! ### IMA verification (`verifyIMAMeasurements`) -/

/-- The hash component of an entry's content-hash field:
`fileHash.includes(':') ? fileHash.split(':')[1] : fileHash`. -/
def fileHashComponent (fileHash : String) : String :=
  match jsSplitChar fileHash ':' with
  | _ :: second :: _ => second
  | _ => fileHash

/-- Result record of `verifyIMAMeasurements`. -/
structure IMAVerifyResult where
  allowed : Bool
  details : List String
  checkedFiles : Nat
  missingFiles : List String
  mismatchedFiles : List String
  deriving Repr, DecidableEq

/-- The `for (const [filePath, expectedHash] of Object.entries(...))` loop of
`verifyIMAMeasurements`, returning
`(details, missingFiles, mismatchedFiles, checkedFiles)` in push order. -/
def imaCheckLoop (entries : List IMAEntry) :
    List (String × String) → List String × List String × List String × Nat
  | [] => ([], [], [], 0)
  | (filePath, expectedHash) :: restPairs =>
    let acc := imaCheckLoop entries restPairs
    match entries.find? (fun e => decide (e.filePath = filePath)) with
    | none =>
      (("  ✗ " ++ filePath ++ ": NOT FOUND in IMA log") :: acc.1,
        filePath :: acc.2.1, acc.2.2.1, acc.2.2.2)
    | some entry =>
      let actualHash := fileHashComponent entry.fileHash
      if lowerStr actualHash = lowerStr expectedHash then
        (("  ✓ " ++ filePath ++ ": hash matches") :: acc.1,
          acc.2.1, acc.2.2.1, acc.2.2.2 + 1)
      else
        (("  ✗ " ++ filePath ++ ": HASH MISMATCH")
            :: ("    Expected: " ++ expectedHash)
            :: ("    Got:      " ++ actualHash) :: acc.1,
          acc.2.1, filePath :: acc.2.2.1, acc.2.2.2 + 1)

/-- `verifyIMAMeasurements(imaLog)` with the module-level `policy` made an
explicit parameter. -/
def verifyIMAMeasurements (policy : MRTDPolicy) (imaLog : String) :
    IMAVerifyResult :=
  match policy.expected_ima_measurements with
  | none =>
    { allowed := true,
      details := ["IMA: ○ no policy set (any measurements allowed)"],
      checkedFiles := 0, missingFiles := [], mismatchedFiles := [] }
  | some pairs =>
    if pairs = [] then
      { allowed := true,
        details := ["IMA: ○ no policy set (any measurements allowed)"],
        checkedFiles := 0, missingFiles := [], mismatchedFiles := [] }
    else
      let entries := parseIMALog imaLog
      let acc := imaCheckLoop entries pairs
      { allowed := acc.2.1.isEmpty && acc.2.2.1.isEmpty,
        details := ("IMA: Found " ++ toString entries.length
          ++ " measurements in log") :: acc.1,
        checkedFiles := acc.2.2.2,
        missingFiles := acc.2.1,
        mismatchedFiles := acc.2.2.1 }

/-! ### Overall verdict (`verifyMeasurements`) -/

/-- The candidate measurement set handed to `verifyMeasurements`; the three
runtime registers and the IMA log are optional TS fields. -/
structure Measurements where
  mrtd : String
  rtmr1 : Option String := none
  rtmr2 : Option String := none
  rtmr3 : Option String := none
  imaLog : Option String := none
  deriving Repr, DecidableEq

/-- JS truthiness of an optional string field (`if (measurements.rtmr1)`):
`undefined` and the empty string are falsy. -/
def truthy : Option String → Bool
  | none => false
  | some s => decide (s ≠ "")

/-- Overall result of `verifyMeasurements`. -/
structure VerifyResult where
  allowed : Bool
  details : List String
  deriving Repr, DecidableEq

/-- The register conjunct `(!measurements.rtmrN || isRTMRAllowed(...))` of
the final verdict: vacuously `true` when the field is falsy. -/
def rtmrPass (policy : MRTDPolicy) (o : Option String) (n : Nat) : Bool :=
  match o with
  | none => true
  | some s => if s = "" then true else isRTMRAllowed policy s n

/-- The detail line pushed for one truthy runtime register. -/
def rtmrDetail (policy : MRTDPolicy) (o : Option String) (n : Nat)
    (label : String) : List String :=
  match o with
  | none => []
  | some s =>
    if s = "" then []
    else
      match rtmrAllowedValues policy n with
      | some l =>
        if l.isEmpty then [label ++ ": ○ no policy set (any value allowed)"]
        else [label ++ ": " ++ (if isRTMRAllowed policy s n then "✓ allowed"
          else "✗ NOT allowed")]
      | none => [label ++ ": ○ no policy set (any value allowed)"]

/-- The IMA block of `verifyMeasurements`: detail lines and the `imaAllowed`
flag (`true` when no truthy `imaLog` was supplied). -/
def imaBlock (policy : MRTDPolicy) (o : Option String) :
    List String × Bool :=
  match o with
  | none => ([], true)
  | some log =>
    if log = "" then ([], true)
    else
      let r := verifyIMAMeasurements policy log
      (r.details ++
        (if !r.allowed then
          ["IMA: ✗ Verification FAILED (" ++ toString r.missingFiles.length
            ++ " missing, " ++ toString r.mismatchedFiles.length
            ++ " mismatched)"]
        else if r.checkedFiles > 0 then
          ["IMA: ✓ All " ++ toString r.checkedFiles
            ++ " critical files verified"]
        else []),
        r.allowed)

/-- `verifyMeasurements(measurements)` of `shared/policy.ts`, with the
module-level `policy` made an explicit parameter. -/
def verifyMeasurements (policy : MRTDPolicy) (m : Measurements) :
    VerifyResult :=
  let mrtdAllowed := isMRTDAllowed policy m.mrtd
  let ima := imaBlock policy m.imaLog
  { allowed := mrtdAllowed && rtmrPass policy m.rtmr1 1
      && rtmrPass policy m.rtmr2 2 && rtmrPass policy m.rtmr3 3 && ima.2,
    details := ("MRTD: " ++ (if mrtdAllowed then "✓ allowed"
        else "✗ NOT allowed"))
      :: (rtmrDetail policy m.rtmr1 1 "RTMR1"
        ++ rtmrDetail policy m.rtmr2 2 "RTMR2"
        ++ rtmrDetail policy m.rtmr3 3 "RTMR3"
        ++ ima.1) }

/-! ## `backend/tdx.ts` -/

/-- `TD_REPORT_DATA_SIZE`. -/
def TD_REPORT_DATA_SIZE : Nat := 64

/-- `padReportData(reportData)`: identity at 64 bytes, error above,
zero-pad on the right below (`new Uint8Array(64)` is zero-initialized and
`set` writes the data at offset 0). -/
def padReportData (reportData : List Nat) : Except String (List Nat) :=
  if reportData.length = TD_REPORT_DATA_SIZE then .ok reportData
  else if TD_REPORT_DATA_SIZE < reportData.length then
    .error ("reportData too large: " ++ toString reportData.length
      ++ " bytes (max " ++ toString TD_REPORT_DATA_SIZE ++ ")")
  else .ok (reportData ++ List.replicate (TD_REPORT_DATA_SIZE - reportData.length) 0)

/-- `getQuoteViaConfigFS(reportData)` with the ConfigFS-TSM exchange made
explicit: `outblob` is the artifact the kernel writes into the request
context's output slot and `provider` the content of its identity file.
The input-size guard runs before the interface is touched; the provider
guard is `!provider.trim().startsWith("tdx_guest")`. -/
def getQuoteViaConfigFS (reportData : List Nat) (outblob : List Nat)
    (provider : String) : Except String (List Nat) :=
  if reportData.length ≠ TD_REPORT_DATA_SIZE then
    .error ("reportData must be " ++ toString TD_REPORT_DATA_SIZE ++ " bytes")
  else if !(jsStartsWith (jsTrim provider) "tdx_guest") then
    .error ("Unexpected provider: " ++ jsTrim provider
      ++ ", expected tdx_guest")
  else .ok outblob

/-- `extractMRTD(quote)`: 48 bytes at offset 184, rendered as prefixed
lowercase hex; `Quote too small` below 232 bytes. -/
def extractMRTD (quote : List Nat) : Except String String :=
  let MRTD_OFFSET := 184
  let MRTD_SIZE := 48
  if quote.length < MRTD_OFFSET + MRTD_SIZE then
    .error ("Quote too small: " ++ toString quote.length ++ " bytes")
  else .ok (bytesToHex ((quote.drop MRTD_OFFSET).take MRTD_SIZE))

/-- The four runtime measurement registers returned by `extractRTMRs`. -/
structure RTMRs where
  rtmr0 : String
  rtmr1 : String
  rtmr2 : String
  rtmr3 : String
  deriving Repr, DecidableEq

/-- `extractRTMRs(quote)`: four 48-byte fields at offsets 376, 424, 472,
520; the single bounds check is against the largest offset. -/
def extractRTMRs (quote : List Nat) : Except String RTMRs :=
  let RTMR_SIZE := 48
  let RTMR0_OFFSET := 376
  let RTMR1_OFFSET := 424
  let RTMR2_OFFSET := 472
  let RTMR3_OFFSET := 520
  if quote.length < RTMR3_OFFSET + RTMR_SIZE then
    .error ("Quote too small for RTMR extraction: "
      ++ toString quote.length ++ " bytes")
  else .ok
    { rtmr0 := bytesToHex ((quote.drop RTMR0_OFFSET).take RTMR_SIZE),
      rtmr1 := bytesToHex ((quote.drop RTMR1_OFFSET).take RTMR_SIZE),
      rtmr2 := bytesToHex ((quote.drop RTMR2_OFFSET).take RTMR_SIZE),
      rtmr3 := bytesToHex ((quote.drop RTMR3_OFFSET).take RTMR_SIZE) }

/-- The extracted view over an artifact (spec §3 "Measurement Set"): the
infrastructure measurement plus the four runtime registers. -/
structure MeasurementSet where
  mrtd : String
  rtmrs : RTMRs
  deriving Repr, DecidableEq

/-- The Quote Field Extractor as a whole: `extractMRTD` and `extractRTMRs`
in sequence, propagating the first failure so that no partially-populated
measurement set can be produced. -/
def extractMeasurementSet (quote : List Nat) : Except String MeasurementSet := do
  let mrtd ← extractMRTD quote
  let rtmrs ← extractRTMRs quote
  return { mrtd := mrtd, rtmrs := rtmrs }

/-! ## SHA-512

Model of the platform primitive `crypto.subtle.digest("SHA-512", m)` used
by `backend/tunnel.ts` (and by the debug routes), implemented from
FIPS 180-4.  Words are `Nat` reduced modulo `2^64`. -/

/-- Reduce to a 64-bit word. -/
def w64 (n : Nat) : Nat := n % (2 ^ 64)

/-- 64-bit right rotation. -/
def rotr64 (x n : Nat) : Nat := w64 ((x >>> n) ||| (x <<< (64 - n)))

/-- 64-bit bitwise complement. -/
def not64 (x : Nat) : Nat := x ^^^ (2 ^ 64 - 1)

/-- SHA-512 `Ch(x, y, z)`. -/
def sha512Ch (x y z : Nat) : Nat := (x &&& y) ^^^ (not64 x &&& z)

/-- SHA-512 `Maj(x, y, z)`. -/
def sha512Maj (x y z : Nat) : Nat := (x &&& y) ^^^ (x &&& z) ^^^ (y &&& z)

/-- SHA-512 `Σ0`. -/
def bigSigma0 (x : Nat) : Nat := rotr64 x 28 ^^^ rotr64 x 34 ^^^ rotr64 x 39

/-- SHA-512 `Σ1`. -/
def bigSigma1 (x : Nat) : Nat := rotr64 x 14 ^^^ rotr64 x 18 ^^^ rotr64 x 41

/-- SHA-512 `σ0`. -/
def smallSigma0 (x : Nat) : Nat := rotr64 x 1 ^^^ rotr64 x 8 ^^^ (x >>> 7)

/-- SHA-512 `σ1`. -/
def smallSigma1 (x : Nat) : Nat := rotr64 x 19 ^^^ rotr64 x 61 ^^^ (x >>> 6)

/-- The 80 SHA-512 round constants of FIPS 180-4 (the first 64 bits of the
fractional parts of the cube roots of the first 80 primes), written here
as decimal 64-bit values. -/
def sha512K : List Nat :=
  [4794697086780616226, 8158064640168781261, 13096744586834688815,
   16840607885511220156, 4131703408338449720, 6480981068601479193,
   10538285296894168987, 12329834152419229976, 15566598209576043074,
   1334009975649890238, 2608012711638119052, 6128411473006802146,
   8268148722764581231, 9286055187155687089, 11230858885718282805,
   13951009754708518548, 16472876342353939154, 17275323862435702243,
   1135362057144423861, 2597628984639134821, 3308224258029322869,
   5365058923640841347, 6679025012923562964, 8573033837759648693,
   10970295158949994411, 12119686244451234320, 12683024718118986047,
   13788192230050041572, 14330467153632333762, 15395433587784984357,
   489312712824947311, 1452737877330783856, 2861767655752347644,
   3322285676063803686, 5560940570517711597, 5996557281743188959,
   7280758554555802590, 8532644243296465576, 9350256976987008742,
   10552545826968843579, 11727347734174303076, 12113106623233404929,
   14000437183269869457, 14369950271660146224, 15101387698204529176,
   15463397548674623760, 17586052441742319658, 1182934255886127544,
   1847814050463011016, 2177327727835720531, 2830643537854262169,
   3796741975233480872, 4115178125766777443, 5681478168544905931,
   6601373596472566643, 7507060721942968483, 8399075790359081724,
   8693463985226723168, 9568029438360202098, 10144078919501101548,
   10430055236837252648, 11840083180663258601, 13761210420658862357,
   14299343276471374635, 14566680578165727644, 15097957966210449927,
   16922976911328602910, 17689382322260857208, 500013540394364858,
   748580250866718886, 1242879168328830382, 1977374033974150939,
   2944078676154940804, 3659926193048069267, 4368137639120453308,
   4836135668995329356, 5532061633213252278, 6448918945643986474,
   6902733635092675308, 7801388544844847127]

/-- The SHA-512 initial hash value `H(0)` of FIPS 180-4 (the first 64 bits
of the fractional parts of the square roots of the first 8 primes), as
decimal 64-bit values. -/
def sha512H0 : List Nat :=
  [7640891576956012808, 13503953896175478587, 4354685564936845355,
   11912009170470909681, 5840696475078001361, 11170449401992604703,
   2270897969802886507, 6620516959819538809]

/-- One 64-bit big-endian word out of up to 8 bytes. -/
def bytesToWordBE (bs : List Nat) : Nat :=
  bs.foldl (fun acc b => acc * 256 + b % 256) 0

/-- Group a byte list into big-endian 64-bit words. -/
def toWords64 (l : List Nat) : List Nat :=
  if h : l = [] then []
  else bytesToWordBE (l.take 8) :: toWords64 (l.drop 8)
termination_by l.length
decreasing_by
  simp only [List.length_drop]
  have : 0 < l.length := List.length_pos.mpr h
  omega

/-- Append the next word of the SHA-512 message schedule. -/
def extendSchedule (w : List Nat) : List Nat :=
  w ++ [w64 (smallSigma1 (w.getD (w.length - 2) 0)
    + w.getD (w.length - 7) 0
    + smallSigma0 (w.getD (w.length - 15) 0)
    + w.getD (w.length - 16) 0)]

/-- The 80-word message schedule of one block. -/
def messageSchedule (block16 : List Nat) : List Nat :=
  (List.range 64).foldl (fun w _ => extendSchedule w) block16

/-- One SHA-512 round on the working variables `[a, b, c, d, e, f, g, h]`. -/
def sha512Round (st : List Nat) (kw : Nat × Nat) : List Nat :=
  let a := st.getD 0 0
  let b := st.getD 1 0
  let c := st.getD 2 0
  let d := st.getD 3 0
  let e := st.getD 4 0
  let f := st.getD 5 0
  let g := st.getD 6 0
  let h := st.getD 7 0
  let t1 := w64 (h + bigSigma1 e + sha512Ch e f g + kw.2 + kw.1)
  let t2 := w64 (bigSigma0 a + sha512Maj a b c)
  [w64 (t1 + t2), a, b, c, w64 (d + t1), e, f, g]

/-- SHA-512 compression of one 128-byte block into the 8-word chaining
state. -/
def sha512Compress (h : List Nat) (block : List Nat) : List Nat :=
  let w := messageSchedule (toWords64 block)
  let st := (w.zip sha512K).foldl sha512Round h
  [w64 (h.getD 0 0 + st.getD 0 0), w64 (h.getD 1 0 + st.getD 1 0),
   w64 (h.getD 2 0 + st.getD 2 0), w64 (h.getD 3 0 + st.getD 3 0),
   w64 (h.getD 4 0 + st.getD 4 0), w64 (h.getD 5 0 + st.getD 5 0),
   w64 (h.getD 6 0 + st.getD 6 0), w64 (h.getD 7 0 + st.getD 7 0)]

/-- Fold the compression function over the 128-byte blocks of the padded
message. -/
def sha512Blocks (h : List Nat) (msg : List Nat) : List Nat :=
  if hm : msg = [] then h
  else sha512Blocks (sha512Compress h (msg.take 128)) (msg.drop 128)
termination_by msg.length
decreasing_by
  simp only [List.length_drop]
  have : 0 < msg.length := List.length_pos.mpr hm
  omega

/-- The 16-byte big-endian bit-length field of the SHA-512 padding. -/
def lengthBytes16 (bits : Nat) : List Nat :=
  (List.range 16).map (fun i => bits >>> ((15 - i) * 8) % 256)

/-- FIPS 180-4 padding: `0x80`, zeros to 112 mod 128, 16-byte bit length. -/
def sha512Pad (msg : List Nat) : List Nat :=
  let zeros := (240 - (msg.length + 1) % 128) % 128
  msg ++ 0x80 :: (List.replicate zeros 0 ++ lengthBytes16 (msg.length * 8))

/-- The 8 big-endian bytes of a 64-bit word. -/
def wordToBytesBE (x : Nat) : List Nat :=
  (List.range 8).map (fun i => x >>> ((7 - i) * 8) % 256)

/-- SHA-512 of a byte list: a 64-byte digest. -/
def sha512 (msg : List Nat) : List Nat :=
  ((sha512Blocks sha512H0 (sha512Pad msg)).map wordToBytesBE).flatten

/-! ## `backend/tunnel.ts` -/

/-- `VerifierData` from `@teekit/tunnel`: freshness nonce and issued-at
timestamp bytes. -/
structure VerifierData where
  val : List Nat
  iat : List Nat
  deriving Repr, DecidableEq

/-- `QuoteData` from `@teekit/tunnel`. -/
structure QuoteData where
  quote : List Nat
  verifier_data : Option VerifierData := none
  runtime_data : Option (List Nat) := none
  deriving Repr, DecidableEq

/-- The `combined` buffer of the report-data binder:
`new Uint8Array(nonce.length + iat.length + pk.length)` filled by `set` at
offsets `0`, `nonce.length`, `nonce.length + iat.length`, i.e. the
concatenation `nonce ∥ iat ∥ pk`. -/
def nonceIatPubkeyCombined (nonce iat x25519PublicKey : List Nat) :
    List Nat :=
  nonce ++ iat ++ x25519PublicKey

/-- `report_data = SHA-512(nonce || iat || x25519_pubkey)`. -/
def computeReportData (nonce iat x25519PublicKey : List Nat) : List Nat :=
  sha512 (nonceIatPubkeyCombined nonce iat x25519PublicKey)

/-- The current tunnel server's `getQuote` ("only uses real TDX (no
fallback)").  The random nonce and the timestamp bytes are inputs; the TDX
device is the result-valued function `tdxQuote` applied to the bound
report data; `imaLogBytes` is the result of reading the IMA log, whose
failure is downgraded to "continue without IMA measurements". -/
def tunnelGetQuote (useRealTdx : Bool) (nonce iat x25519PublicKey : List Nat)
    (tdxQuote : List Nat → Except String (List Nat))
    (imaLogBytes : Except String (List Nat)) : Except String QuoteData :=
  if !useRealTdx then
    .error "USE_REAL_TDX is not enabled. This server requires TDX attestation."
  else
    let verifierData : VerifierData := { val := nonce, iat := iat }
    let reportData := computeReportData nonce iat x25519PublicKey
    match tdxQuote reportData with
    | .error e => .error e
    | .ok quote =>
      match imaLogBytes with
      | .ok ima =>
        .ok { quote := quote, verifier_data := some verifierData,
              runtime_data := some ima }
      | .error _ =>
        .ok { quote := quote, verifier_data := some verifierData }

/-- The earlier tunnel server's `getQuote` kept in `backend/tunnel.ts`
("uses real TDX if enabled, otherwise sample quote"): a failure of real
quote generation is caught and the sample artifact (`tappdV4Hex` from
`samples.ts`, passed in here as `sampleQuote`) is returned instead.  None
of its paths throw. -/
def tunnelGetQuoteLegacy (sampleQuote : List Nat) (useRealTdx : Bool)
    (x25519PublicKey : List Nat)
    (tdxQuote : List Nat → Except String (List Nat)) : QuoteData :=
  if useRealTdx then
    match tdxQuote x25519PublicKey with
    | .ok quote => { quote := quote }
    | .error _ => { quote := sampleQuote }
  else { quote := sampleQuote }

/-! ## `frontend/src/App.tsx` -/

/-- The parsed TDX quote body fields read by `verifyTdxQuote`
(`quote.body.mr_td`, `quote.body.rtmr0..3`, `quote.body.report_data`). -/
structure ParsedQuoteBody where
  mr_td : List Nat
  rtmr0 : List Nat
  rtmr1 : List Nat
  rtmr2 : List Nat
  rtmr3 : List Nat
  report_data : List Nat
  deriving Repr, DecidableEq

/-- The candidate measurement set `verifyTdxQuote` hands to
`verifyMeasurements`: hex renderings of `mr_td` and of registers 1–3
(register 0 is extracted but not passed), plus the separately fetched IMA
log (`none` when the fetch failed or returned a non-ok status). -/
def measurementsOfQuote (q : ParsedQuoteBody) (imaLog : Option String) :
    Measurements :=
  { mrtd := bytesToHex q.mr_td,
    rtmr1 := some (bytesToHex q.rtmr1),
    rtmr2 := some (bytesToHex q.rtmr2),
    rtmr3 := some (bytesToHex q.rtmr3),
    imaLog := imaLog }

/-- `verifyTdxQuote(quote)` of `frontend/src/App.tsx`: the whole body is
wrapped in `try { ... } catch { return false }`, so a malformed quote —
modelled as the `Except.error` case of reading the body fields — yields
`false`; otherwise the verdict is `verifyMeasurements(...).allowed`. -/
def verifyTdxQuote (policy : MRTDPolicy)
    (quote : Except String ParsedQuoteBody) (imaFetch : Option String) :
    Bool :=
  match quote with
  | .error _ => false
  | .ok q => (verifyMeasurements policy (measurementsOfQuote q imaFetch)).allowed

/-! ## Character-level facts about ASCII lowercasing

Used to settle the normalization claims. -/

/-- `Char.ofNat` round-trips on scalar values below the surrogate range. -/
lemma toNat_ofNatValid (n : Nat) (h : n < 55296) : (Char.ofNat n).toNat = n := by
  have hv : n.isValidChar := Or.inl h
  rw [Char.ofNat, dif_pos hv]
  simp [Char.ofNatAux, Char.toNat, UInt32.toNat, BitVec.toNat_ofNatLt]

/-- The code point of `Char.toLower`: shifted by 32 on `A`–`Z`, unchanged
elsewhere. -/
lemma toNat_toLower (c : Char) :
    (Char.toLower c).toNat
      = if 65 ≤ c.toNat ∧ c.toNat ≤ 90 then c.toNat + 32 else c.toNat := by
  by_cases h : 65 ≤ c.toNat ∧ c.toNat ≤ 90
  · rw [if_pos h]
    simp only [Char.toLower, ge_iff_le]
    rw [if_pos h]
    exact toNat_ofNatValid (c.toNat + 32) (by omega)
  · rw [if_neg h]
    simp only [Char.toLower, ge_iff_le]
    rw [if_neg h]

/-- Characters are equal exactly when their code points are. -/
lemma charEq_iff_toNat (a b : Char) : a = b ↔ a.toNat = b.toNat := by
  constructor
  · intro h; rw [h]
  · intro h
    rw [← Char.ofNat_toNat a, ← Char.ofNat_toNat b, h]

/-- `Char.toLower` is idempotent. -/
lemma toLower_toLower (c : Char) :
    Char.toLower (Char.toLower c) = Char.toLower c := by
  rw [charEq_iff_toNat, toNat_toLower, toNat_toLower]
  by_cases h : 65 ≤ c.toNat ∧ c.toNat ≤ 90
  · simp only [if_pos h]
    rw [if_neg (by omega)]
  · simp only [if_neg h]

/-- Lowercasing yields `'0'` only from `'0'`. -/
lemma toLower_eq_zero_iff (c : Char) : Char.toLower c = '0' ↔ c = '0' := by
  rw [charEq_iff_toNat, charEq_iff_toNat c '0', toNat_toLower]
  have h0 : ('0' : Char).toNat = 48 := by decide
  rw [h0]
  split <;> omega

/-- Lowercasing yields `'x'` exactly from `'x'` or `'X'`. -/
lemma toLower_eq_x_iff (c : Char) :
    Char.toLower c = 'x' ↔ (c = 'x' ∨ c = 'X') := by
  rw [charEq_iff_toNat, charEq_iff_toNat c 'x', charEq_iff_toNat c 'X',
    toNat_toLower]
  have hx : ('x' : Char).toNat = 120 := by decide
  have hX : ('X' : Char).toNat = 88 := by decide
  rw [hx, hX]
  split <;> omega

/-- Lowercasing never yields `'X'`. -/
lemma toLower_ne_X (c : Char) : Char.toLower c ≠ 'X' := by
  rw [Ne, charEq_iff_toNat, toNat_toLower]
  have hX : ('X' : Char).toNat = 88 := by decide
  rw [hX]
  split <;> omega

/-- Whether a character list opens with a `0x` / `0X` marker. -/
def starts0xList : List Char → Bool
  | c0 :: c1 :: _ => decide (c0 = '0' ∧ (c1 = 'x' ∨ c1 = 'X'))
  | _ => false

/-- Whether a character list opens with two consecutive `0x` / `0X`
markers — exactly the strings on which one `replace(/^0x/i, '')` pass
leaves another marker behind. -/
def hasDouble0xList : List Char → Bool
  | c0 :: c1 :: c2 :: c3 :: _ =>
    decide ((c0 = '0' ∧ (c1 = 'x' ∨ c1 = 'X'))
      ∧ (c2 = '0' ∧ (c3 = 'x' ∨ c3 = 'X')))
  | _ => false

/-- String form of `starts0xList`. -/
def starts0x (s : String) : Bool := starts0xList s.data

/-- String form of `hasDouble0xList`. -/
def hasDouble0x (s : String) : Bool := hasDouble0xList s.data

/-- Mapping `Char.toLower` twice equals mapping it once. -/
lemma map_toLower_toLower (l : List Char) :
    (l.map Char.toLower).map Char.toLower = l.map Char.toLower := by
  induction l with
  | nil => rfl
  | cons c rest ih => simp only [List.map_cons, toLower_toLower, ih]

/-- The `0x` marker test is invariant under lowercasing of its two
characters. -/
lemma head0x_map_toLower_iff (c0 c1 : Char) :
    (Char.toLower c0 = '0' ∧ (Char.toLower c1 = 'x' ∨ Char.toLower c1 = 'X'))
      ↔ (c0 = '0' ∧ (c1 = 'x' ∨ c1 = 'X')) := by
  constructor
  · rintro ⟨h0, hx⟩
    refine ⟨(toLower_eq_zero_iff c0).mp h0, ?_⟩
    cases hx with
    | inl h => exact (toLower_eq_x_iff c1).mp h
    | inr h => exact absurd h (toLower_ne_X c1)
  · rintro ⟨h0, hx⟩
    exact ⟨(toLower_eq_zero_iff c0).mpr h0, Or.inl ((toLower_eq_x_iff c1).mpr hx)⟩

/-- Dropping the `0x` marker commutes with lowercasing. -/
lemma dropLeading0xList_map_toLower (l : List Char) :
    dropLeading0xList (l.map Char.toLower)
      = (dropLeading0xList l).map Char.toLower := by
  match l with
  | [] => rfl
  | [c] => rfl
  | c0 :: c1 :: rest =>
    simp only [List.map_cons, dropLeading0xList]
    by_cases h : c0 = '0' ∧ (c1 = 'x' ∨ c1 = 'X')
    · rw [if_pos ((head0x_map_toLower_iff c0 c1).mpr h), if_pos h]
    · rw [if_neg (fun hc => h ((head0x_map_toLower_iff c0 c1).mp hc)), if_neg h]
      simp only [List.map_cons]

/-- Dropping the marker is the identity on lists that do not open with
one. -/
lemma dropLeading0xList_of_not_starts (l : List Char)
    (h : starts0xList l = false) : dropLeading0xList l = l := by
  match l with
  | [] => rfl
  | [c] => rfl
  | c0 :: c1 :: rest =>
    simp only [starts0xList, decide_eq_false_iff_not] at h
    simp only [dropLeading0xList, if_neg h]

/-- Dropping the marker twice equals dropping it once, except on doubled
markers. -/
lemma dropLeading0xList_idem (l : List Char)
    (h : hasDouble0xList l = false) :
    dropLeading0xList (dropLeading0xList l) = dropLeading0xList l := by
  match l with
  | [] => rfl
  | [c] => rfl
  | c0 :: c1 :: rest =>
    by_cases hc : c0 = '0' ∧ (c1 = 'x' ∨ c1 = 'X')
    · rw [show dropLeading0xList (c0 :: c1 :: rest) = rest from by
        simp only [dropLeading0xList, if_pos hc]]
      apply dropLeading0xList_of_not_starts
      match rest with
      | [] => rfl
      | [c] => rfl
      | c2 :: c3 :: r =>
        simp only [hasDouble0xList, decide_eq_false_iff_not] at h
        simp only [starts0xList, decide_eq_false_iff_not]
        exact fun h2 => h ⟨hc, h2⟩
    · simp only [dropLeading0xList, if_neg hc]

/-- `normalizeMeasurement` in terms of the underlying character list. -/
lemma normalizeMeasurement_data (s : String) :
    normalizeMeasurement s
      = String.mk ((dropLeading0xList s.data).map Char.toLower) := rfl

/-! ## Claim theorems -/

/-- **C2.** When the mandatory allow-list `allowed_mrtd` is empty,
`isMRTDAllowed` returns `false` for every candidate string. -/
theorem isMRTDAllowed_empty_denies_all (policy : MRTDPolicy) (mrtd : String)
    (h : policy.allowed_mrtd = []) : isMRTDAllowed policy mrtd = false := by
  simp [isMRTDAllowed, h]

/-- Witness for C2: the empty candidate is rejected by an empty policy. -/
theorem isMRTDAllowed_empty_denies_all_witness :
    ({ allowed_mrtd := [] } : MRTDPolicy).allowed_mrtd = []
      ∧ isMRTDAllowed { allowed_mrtd := [] } "" = false :=
  ⟨rfl, isMRTDAllowed_empty_denies_all { allowed_mrtd := [] } "" rfl⟩

/-- **C3.** `isRTMRAllowed` accepts every candidate when the register's
allow-list is absent or empty, and otherwise accepts exactly the
candidates whose normalized form equals the normalized form of some list
entry. -/
theorem isRTMRAllowed_characterization (policy : MRTDPolicy) (rtmr : String)
    (rtmrNumber : Nat) :
    isRTMRAllowed policy rtmr rtmrNumber = true ↔
      ∀ l, rtmrAllowedValues policy rtmrNumber = some l → l ≠ [] →
        ∃ allowed ∈ l,
          normalizeMeasurement allowed = normalizeMeasurement rtmr := by
  unfold isRTMRAllowed
  cases h : rtmrAllowedValues policy rtmrNumber with
  | none => simp [h]
  | some l =>
    by_cases hl : l = []
    · subst hl
      simp
    · simp [List.isEmpty_iff, hl, List.any_eq_true]

/-- **C10.** The client-side quote verifier returns `true` exactly when the
quote body was read without an exception and the measurement verdict is
an allow; in particular every exception path yields `false` (deny). -/
theorem verifyTdxQuote_characterization (policy : MRTDPolicy)
    (quote : Except String ParsedQuoteBody) (imaFetch : Option String) :
    verifyTdxQuote policy quote imaFetch = true ↔
      ∃ q, quote = Except.ok q ∧
        (verifyMeasurements policy (measurementsOfQuote q imaFetch)).allowed
          = true := by
  cases quote <;> simp [verifyTdxQuote]

/-- **C6.** An artifact shorter than `offset + width` for any of the five
fixed fields (MRTD at 184, RTMR0–3 at 376/424/472/520, width 48) makes
extraction fail with a too-small error; no measurement set, partial or
complete, is returned. -/
theorem extractMeasurementSet_too_small (quote : List Nat)
    (h : quote.length < 184 + 48 ∨ quote.length < 376 + 48
      ∨ quote.length < 424 + 48 ∨ quote.length < 472 + 48
      ∨ quote.length < 520 + 48) :
    (∃ e, extractMeasurementSet quote = Except.error e)
      ∧ ∀ ms, extractMeasurementSet quote ≠ Except.ok ms := by
  have h568 : quote.length < 568 := by omega
  by_cases h232 : quote.length < 232
  · refine ⟨⟨"Quote too small: " ++ toString quote.length ++ " bytes", ?_⟩, ?_⟩
    · simp [extractMeasurementSet, extractMRTD, h232, Bind.bind, Except.bind]
    · intro ms
      simp [extractMeasurementSet, extractMRTD, h232, Bind.bind, Except.bind]
  · refine ⟨⟨"Quote too small for RTMR extraction: "
        ++ toString quote.length ++ " bytes", ?_⟩, ?_⟩
    · simp [extractMeasurementSet, extractMRTD, extractRTMRs, h232, h568,
        Bind.bind, Except.bind]
    · intro ms
      simp [extractMeasurementSet, extractMRTD, extractRTMRs, h232, h568,
        Bind.bind, Except.bind]

/-- Witness for C6: the empty artifact is too small for every field and
extraction fails. -/
theorem extractMeasurementSet_too_small_witness :
    (([] : List Nat).length < 184 + 48 ∨ ([] : List Nat).length < 376 + 48
      ∨ ([] : List Nat).length < 424 + 48 ∨ ([] : List Nat).length < 472 + 48
      ∨ ([] : List Nat).length < 520 + 48)
    ∧ ((∃ e, extractMeasurementSet [] = Except.error e)
      ∧ ∀ ms, extractMeasurementSet [] ≠ Except.ok ms) :=
  ⟨Or.inl (by decide), extractMeasurementSet_too_small [] (Or.inl (by decide))⟩

/-- Counterexample to **C7** as stated: the provider string `"tdx_guestX"`
differs from the expected tag `"tdx_guest"` yet the request succeeds,
because the code checks `startsWith` on the trimmed string, not
equality. -/
theorem getQuoteViaConfigFS_startsWith_not_equality_cex :
    "tdx_guestX" ≠ "tdx_guest"
      ∧ getQuoteViaConfigFS (List.replicate 64 0) [7] "tdx_guestX"
        = Except.ok [7] := by
  refine ⟨by decide, ?_⟩
  have h1 : jsStartsWith (jsTrim "tdx_guestX") "tdx_guest" = true := by decide
  simp [getQuoteViaConfigFS, h1, TD_REPORT_DATA_SIZE]

/-- **C7 (amended).** For a well-sized report-data buffer, the ConfigFS
request fails with the unexpected-provider error exactly when the trimmed
provider string does not start with `"tdx_guest"`; when the provider check
passes the artifact is returned unchanged. -/
theorem getQuoteViaConfigFS_provider_check (reportData outblob : List Nat)
    (provider : String) (h : reportData.length = 64) :
    (getQuoteViaConfigFS reportData outblob provider
        = Except.error ("Unexpected provider: " ++ jsTrim provider
          ++ ", expected tdx_guest")
      ↔ jsStartsWith (jsTrim provider) "tdx_guest" = false)
    ∧ (jsStartsWith (jsTrim provider) "tdx_guest" = true →
        getQuoteViaConfigFS reportData outblob provider
          = Except.ok outblob) := by
  unfold getQuoteViaConfigFS TD_REPORT_DATA_SIZE
  cases hs : jsStartsWith (jsTrim provider) "tdx_guest" <;> simp [h, hs]

/-- Witness for C7's amended theorem: a 64-byte buffer with provider
string `"foo"` is rejected with the unexpected-provider error. -/
theorem getQuoteViaConfigFS_provider_check_witness :
    (List.replicate 64 0).length = 64
    ∧ ((getQuoteViaConfigFS (List.replicate 64 0) [7] "foo"
        = Except.error ("Unexpected provider: " ++ jsTrim "foo"
          ++ ", expected tdx_guest")
      ↔ jsStartsWith (jsTrim "foo") "tdx_guest" = false)
    ∧ (jsStartsWith (jsTrim "foo") "tdx_guest" = true →
        getQuoteViaConfigFS (List.replicate 64 0) [7] "foo"
          = Except.ok [7])) :=
  ⟨by simp, getQuoteViaConfigFS_provider_check (List.replicate 64 0) [7] "foo"
    (by simp)⟩

/-- Counterexample to **C9** as stated: normalization is not idempotent on
every string — on `"0x0xAB"` one pass leaves `"0xab"`, whose own
normalization strips a second marker. -/
theorem normalizeMeasurement_not_idempotent_cex :
    normalizeMeasurement (normalizeMeasurement "0x0xAB")
      ≠ normalizeMeasurement "0x0xAB" := by decide

/-- **C9 (amended).** Hex-measurement normalization is idempotent on every
string that does not open with a doubled `0x` marker (in particular on
every hex-digit string with at most one prefix marker); prepending `0x`
or `0X` to a string that does not itself open with a marker does not
change its normalization; and strings equal up to letter case normalize
identically. -/
theorem normalizeMeasurement_idem_insensitive :
    (∀ s : String, hasDouble0x s = false →
      normalizeMeasurement (normalizeMeasurement s) = normalizeMeasurement s)
    ∧ (∀ s : String, starts0x s = false →
      normalizeMeasurement ("0x" ++ s) = normalizeMeasurement s
        ∧ normalizeMeasurement ("0X" ++ s) = normalizeMeasurement s)
    ∧ (∀ s t : String, s.data.map Char.toLower = t.data.map Char.toLower →
      normalizeMeasurement s = normalizeMeasurement t) := by
  refine ⟨?_, ?_, ?_⟩
  · intro s h
    rw [normalizeMeasurement_data, normalizeMeasurement_data]
    show String.mk ((dropLeading0xList
      ((dropLeading0xList s.data).map Char.toLower)).map Char.toLower) = _
    rw [dropLeading0xList_map_toLower, map_toLower_toLower,
      dropLeading0xList_idem s.data h]
  · intro s h
    constructor
    · rw [normalizeMeasurement_data, normalizeMeasurement_data]
      show String.mk
        ((dropLeading0xList ('0' :: 'x' :: s.data)).map Char.toLower) = _
      rw [show dropLeading0xList ('0' :: 'x' :: s.data) = s.data from by
          simp [dropLeading0xList],
        dropLeading0xList_of_not_starts s.data h]
    · rw [normalizeMeasurement_data, normalizeMeasurement_data]
      show String.mk
        ((dropLeading0xList ('0' :: 'X' :: s.data)).map Char.toLower) = _
      rw [show dropLeading0xList ('0' :: 'X' :: s.data) = s.data from by
          simp [dropLeading0xList],
        dropLeading0xList_of_not_starts s.data h]
  · intro s t h
    rw [normalizeMeasurement_data, normalizeMeasurement_data,
      ← dropLeading0xList_map_toLower, h, dropLeading0xList_map_toLower]

/-- Witness for C9's amended theorem, on the spec's own example strings:
`normalize("0xAABB") = normalize("aabb") = normalize("AABB")`, and
normalization is idempotent there. -/
theorem normalizeMeasurement_idem_insensitive_witness :
    hasDouble0x "0xAABB" = false
    ∧ normalizeMeasurement (normalizeMeasurement "0xAABB")
        = normalizeMeasurement "0xAABB"
    ∧ starts0x "AABB" = false
    ∧ normalizeMeasurement ("0x" ++ "AABB") = normalizeMeasurement "AABB"
    ∧ normalizeMeasurement "AABB" = normalizeMeasurement "aabb" :=
  ⟨by decide, normalizeMeasurement_idem_insensitive.1 "0xAABB" (by decide),
    by decide, (normalizeMeasurement_idem_insensitive.2.1 "AABB" (by decide)).1,
    normalizeMeasurement_idem_insensitive.2.2 "AABB" "aabb" (by decide)⟩

/-- The register conjunct passes exactly when every truthy supplied value
for that register is policy-allowed. -/
lemma rtmrPass_eq_true_iff (policy : MRTDPolicy) (o : Option String) (n : Nat) :
    rtmrPass policy o n = true ↔
      ∀ s, o = some s → s ≠ "" → isRTMRAllowed policy s n = true := by
  cases o with
  | none => simp [rtmrPass]
  | some s =>
    by_cases hs : s = ""
    · subst hs
      simp [rtmrPass]
    · simp [rtmrPass, hs]

/-- The IMA conjunct passes exactly when every truthy supplied log passes
`verifyIMAMeasurements`. -/
lemma imaBlock_snd_iff (policy : MRTDPolicy) (o : Option String) :
    (imaBlock policy o).2 = true ↔
      ∀ log, o = some log → log ≠ "" →
        (verifyIMAMeasurements policy log).allowed = true := by
  cases o with
  | none => simp [imaBlock]
  | some log =>
    by_cases hl : log = ""
    · subst hl
      simp [imaBlock]
    · simp [imaBlock, hl]

/-- The amended right-hand side for C1: the MRTD passes, every runtime
register supplied as a *non-empty* string passes its policy check, and a
*non-empty* supplied integrity log passes the IMA check. -/
def c1AmendedRHS (policy : MRTDPolicy) (m : Measurements) : Prop :=
  isMRTDAllowed policy m.mrtd = true
  ∧ (∀ s, m.rtmr1 = some s → s ≠ "" → isRTMRAllowed policy s 1 = true)
  ∧ (∀ s, m.rtmr2 = some s → s ≠ "" → isRTMRAllowed policy s 2 = true)
  ∧ (∀ s, m.rtmr3 = some s → s ≠ "" → isRTMRAllowed policy s 3 = true)
  ∧ (∀ log, m.imaLog = some log → log ≠ "" →
      (verifyIMAMeasurements policy log).allowed = true)

/-- **C1 (amended).** The overall verdict allows exactly when the MRTD
check passes, each runtime register supplied as a non-empty string passes
its policy check, and a non-empty supplied integrity log passes; a
register that is absent *or supplied as the empty string* (JS falsy) is
vacuously passing. -/
theorem verifyMeasurements_allowed_iff (policy : MRTDPolicy)
    (m : Measurements) :
    (verifyMeasurements policy m).allowed = true ↔ c1AmendedRHS policy m := by
  unfold verifyMeasurements c1AmendedRHS
  simp only [Bool.and_eq_true, rtmrPass_eq_true_iff, imaBlock_snd_iff]
  tauto

/-- Formalization of C1's verdict condition exactly as the claim states
it: *every* register supplied by the caller must pass its policy check
(no exemption for the empty string).  Written from the claim's words to
be compared with the code's behaviour. -/
def c1ClaimRHS (policy : MRTDPolicy) (m : Measurements) : Prop :=
  isMRTDAllowed policy m.mrtd = true
  ∧ (∀ s, m.rtmr1 = some s → isRTMRAllowed policy s 1 = true)
  ∧ (∀ s, m.rtmr2 = some s → isRTMRAllowed policy s 2 = true)
  ∧ (∀ s, m.rtmr3 = some s → isRTMRAllowed policy s 3 = true)
  ∧ (∀ log, m.imaLog = some log → log ≠ "" →
      (verifyIMAMeasurements policy log).allowed = true)

/-- Policy for the C1 counterexample: one pinned MRTD and a non-empty
RTMR1 allow-list. -/
def c1CexPolicy : MRTDPolicy :=
  { allowed_mrtd := ["aa"], allowed_rtmr1 := some ["bb"] }

/-- Input for the C1 counterexample: a passing MRTD and `rtmr1` supplied
as the empty string. -/
def c1CexMeasurements : Measurements :=
  { mrtd := "aa", rtmr1 := some "" }

/-- Counterexample to **C1** as stated: `rtmr1` is supplied by the caller
(as the empty string) and fails its policy check, yet the overall verdict
is an allow, because the code's truthiness test treats an empty-string
register like an absent one. -/
theorem verifyMeasurements_supplied_empty_register_cex :
    (verifyMeasurements c1CexPolicy c1CexMeasurements).allowed = true
    ∧ c1CexMeasurements.rtmr1 = some ""
    ∧ isRTMRAllowed c1CexPolicy "" 1 = false
    ∧ ¬ c1ClaimRHS c1CexPolicy c1CexMeasurements := by
  refine ⟨by decide, rfl, by decide, ?_⟩
  intro h
  have h1 := h.2.1 "" rfl
  have h2 : isRTMRAllowed c1CexPolicy "" 1 = false := by decide
  rw [h1] at h2
  simp at h2

/-- The `missingFiles` accumulator of the IMA loop collects, in policy
order, exactly the configured paths with no matching parsed entry. -/
lemma imaCheckLoop_missing (entries : List IMAEntry)
    (pairs : List (String × String)) :
    (imaCheckLoop entries pairs).2.1
      = (pairs.filter (fun q =>
          (entries.find? (fun e => decide (e.filePath = q.1))).isNone)).map
          Prod.fst := by
  induction pairs with
  | nil => rfl
  | cons q rest ih =>
    obtain ⟨fp, eh⟩ := q
    simp only [imaCheckLoop]
    cases hf : entries.find? (fun e => decide (e.filePath = fp)) with
    | none => simp [hf, ih, List.filter_cons]
    | some entry =>
      by_cases hm : lowerStr (fileHashComponent entry.fileHash) = lowerStr eh
      · simp [hf, hm, ih, List.filter_cons]
      · simp [hf, hm, ih, List.filter_cons]

/-- The `mismatchedFiles` accumulator collects exactly the configured
paths whose first matching entry's hash component differs
case-insensitively from the expected hash. -/
lemma imaCheckLoop_mismatched (entries : List IMAEntry)
    (pairs : List (String × String)) :
    (imaCheckLoop entries pairs).2.2.1
      = pairs.filterMap (fun q =>
          match entries.find? (fun e => decide (e.filePath = q.1)) with
          | none => none
          | some e =>
            if lowerStr (fileHashComponent e.fileHash) = lowerStr q.2
            then none else some q.1) := by
  induction pairs with
  | nil => rfl
  | cons q rest ih =>
    obtain ⟨fp, eh⟩ := q
    simp only [imaCheckLoop]
    cases hf : entries.find? (fun e => decide (e.filePath = fp)) with
    | none => simp [hf, ih, List.filterMap_cons]
    | some entry =>
      by_cases hm : lowerStr (fileHashComponent entry.fileHash) = lowerStr eh
      · simp [hf, hm, ih, List.filterMap_cons]
      · simp [hf, hm, ih, List.filterMap_cons]

/-- **C5.** With a configured, non-empty expected-measurements table:
`missingFiles` is exactly the configured paths whose *first* matching
parsed log entry does not exist; `mismatchedFiles` is exactly the
configured paths whose first matching entry's hash component (the part
after the colon if present, the whole field otherwise) differs
case-insensitively from the expected hash; and the verdict allows iff
both lists are empty. -/
theorem verifyIMAMeasurements_spec (policy : MRTDPolicy)
    (pairs : List (String × String)) (imaLog : String)
    (hp : policy.expected_ima_measurements = some pairs) (hne : pairs ≠ []) :
    (verifyIMAMeasurements policy imaLog).missingFiles
        = (pairs.filter (fun q =>
            ((parseIMALog imaLog).find?
              (fun e => decide (e.filePath = q.1))).isNone)).map Prod.fst
    ∧ (verifyIMAMeasurements policy imaLog).mismatchedFiles
        = pairs.filterMap (fun q =>
            match (parseIMALog imaLog).find?
                (fun e => decide (e.filePath = q.1)) with
            | none => none
            | some e =>
              if lowerStr (fileHashComponent e.fileHash) = lowerStr q.2
              then none else some q.1)
    ∧ ((verifyIMAMeasurements policy imaLog).allowed = true ↔
        (verifyIMAMeasurements policy imaLog).missingFiles = []
          ∧ (verifyIMAMeasurements policy imaLog).mismatchedFiles = []) := by
  unfold verifyIMAMeasurements
  rw [hp]
  simp only [if_neg hne]
  refine ⟨imaCheckLoop_missing _ _, imaCheckLoop_mismatched _ _, ?_⟩
  simp [List.isEmpty_iff]

/-- Policy used by the C5 witness: one configured path and expected
hash. -/
def c5WitnessPolicy : MRTDPolicy :=
  { allowed_mrtd := [],
    expected_ima_measurements := some [("/usr/bin/ratsnest", "ab12")] }

/-- Witness for C5 on a one-line log whose hash matches the expectation
up to case. -/
theorem verifyIMAMeasurements_spec_witness :
    c5WitnessPolicy.expected_ima_measurements
        = some [("/usr/bin/ratsnest", "ab12")]
    ∧ ([("/usr/bin/ratsnest", "ab12")] : List (String × String)) ≠ []
    ∧ ((verifyIMAMeasurements c5WitnessPolicy
          "10 aabb ima-ng sha256:AB12 /usr/bin/ratsnest").missingFiles
        = (([("/usr/bin/ratsnest", "ab12")] : List (String × String)).filter
            (fun q =>
              ((parseIMALog "10 aabb ima-ng sha256:AB12 /usr/bin/ratsnest").find?
                (fun e => decide (e.filePath = q.1))).isNone)).map Prod.fst
    ∧ (verifyIMAMeasurements c5WitnessPolicy
          "10 aabb ima-ng sha256:AB12 /usr/bin/ratsnest").mismatchedFiles
        = ([("/usr/bin/ratsnest", "ab12")] : List (String × String)).filterMap
            (fun q =>
              match (parseIMALog "10 aabb ima-ng sha256:AB12 /usr/bin/ratsnest").find?
                  (fun e => decide (e.filePath = q.1)) with
              | none => none
              | some e =>
                if lowerStr (fileHashComponent e.fileHash) = lowerStr q.2
                then none else some q.1)
    ∧ ((verifyIMAMeasurements c5WitnessPolicy
          "10 aabb ima-ng sha256:AB12 /usr/bin/ratsnest").allowed = true ↔
        (verifyIMAMeasurements c5WitnessPolicy
          "10 aabb ima-ng sha256:AB12 /usr/bin/ratsnest").missingFiles = []
          ∧ (verifyIMAMeasurements c5WitnessPolicy
            "10 aabb ima-ng sha256:AB12 /usr/bin/ratsnest").mismatchedFiles
              = [])) :=
  ⟨rfl, by decide,
    verifyIMAMeasurements_spec c5WitnessPolicy [("/usr/bin/ratsnest", "ab12")]
      "10 aabb ima-ng sha256:AB12 /usr/bin/ratsnest" rfl (by decide)⟩

/-- One compression step always yields the 8 chaining words. -/
lemma sha512Compress_length (hs b : List Nat) :
    (sha512Compress hs b).length = 8 := by
  simp [sha512Compress]

/-- Each 64-bit word serializes to 8 bytes. -/
lemma wordToBytesBE_length (x : Nat) : (wordToBytesBE x).length = 8 := by
  simp [wordToBytesBE]

/-- Folding the compression function preserves the 8-word state shape. -/
lemma sha512Blocks_length :
    ∀ (n : Nat) (msg : List Nat), msg.length ≤ n →
      ∀ hs : List Nat, hs.length = 8 → (sha512Blocks hs msg).length = 8 := by
  intro n
  induction n with
  | zero =>
    intro msg hle hs hh
    have hm : msg = [] := List.eq_nil_of_length_eq_zero (Nat.le_zero.mp hle)
    subst hm
    rw [sha512Blocks]
    simpa using hh
  | succ n ih =>
    intro msg hle hs hh
    rw [sha512Blocks]
    by_cases hm : msg = []
    · simpa [hm] using hh
    · rw [dif_neg hm]
      apply ih
      · have : 0 < msg.length := List.length_pos.mpr hm
        simp only [List.length_drop]
        omega
      · exact sha512Compress_length hs (msg.take 128)

/-- Every SHA-512 digest is exactly 64 bytes wide. -/
lemma sha512_length (msg : List Nat) : (sha512 msg).length = 64 := by
  unfold sha512
  rw [List.length_flatten, List.map_map]
  have hall : (sha512Blocks sha512H0 (sha512Pad msg)).map
      (List.length ∘ wordToBytesBE)
        = (sha512Blocks sha512H0 (sha512Pad msg)).map (fun _ => 8) := by
    apply List.map_congr_left
    intro a _
    exact wordToBytesBE_length a
  rw [hall, List.map_const']
  have hb : (sha512Blocks sha512H0 (sha512Pad msg)).length = 8 :=
    sha512Blocks_length (sha512Pad msg).length (sha512Pad msg) le_rfl
      sha512H0 rfl
  rw [hb]
  simp

/-- **C8.** For 32-byte nonce, 8-byte timestamp and 32-byte public key,
the report-data binder hashes exactly the 72-byte concatenation
`nonce ∥ iat ∥ pubkey` in that fixed order, its digest is exactly
64 bytes wide, and identical inputs produce identical digests. -/
theorem computeReportData_binding (nonce iat x25519PublicKey : List Nat)
    (hn : nonce.length = 32) (hi : iat.length = 8)
    (hp : x25519PublicKey.length = 32) :
    computeReportData nonce iat x25519PublicKey
        = sha512 (nonce ++ iat ++ x25519PublicKey)
    ∧ (nonceIatPubkeyCombined nonce iat x25519PublicKey).length = 72
    ∧ (computeReportData nonce iat x25519PublicKey).length = 64
    ∧ ∀ nonce2 iat2 pk2,
        nonce2 = nonce → iat2 = iat → pk2 = x25519PublicKey →
        computeReportData nonce2 iat2 pk2
          = computeReportData nonce iat x25519PublicKey := by
  refine ⟨rfl, ?_, sha512_length _, ?_⟩
  · simp [nonceIatPubkeyCombined, hn, hi, hp]
  · intro n2 i2 p2 h1 h2 h3
    rw [h1, h2, h3]

/-- Witness for C8 at the spec §8 scenario: a zero nonce, a zero
timestamp, and a key of 32 `0xAA` bytes. -/
theorem computeReportData_binding_witness :
    (List.replicate 32 0).length = 32
    ∧ (List.replicate 8 0).length = 8
    ∧ (List.replicate 32 0xAA).length = 32
    ∧ (computeReportData (List.replicate 32 0) (List.replicate 8 0)
          (List.replicate 32 0xAA)
        = sha512 (List.replicate 32 0 ++ List.replicate 8 0
          ++ List.replicate 32 0xAA)
    ∧ (nonceIatPubkeyCombined (List.replicate 32 0) (List.replicate 8 0)
        (List.replicate 32 0xAA)).length = 72
    ∧ (computeReportData (List.replicate 32 0) (List.replicate 8 0)
        (List.replicate 32 0xAA)).length = 64
    ∧ ∀ nonce2 iat2 pk2,
        nonce2 = List.replicate 32 0 → iat2 = List.replicate 8 0 →
        pk2 = List.replicate 32 0xAA →
        computeReportData nonce2 iat2 pk2
          = computeReportData (List.replicate 32 0) (List.replicate 8 0)
            (List.replicate 32 0xAA)) :=
  ⟨by simp, by simp, by simp,
    computeReportData_binding (List.replicate 32 0) (List.replicate 8 0)
      (List.replicate 32 0xAA) (by simp) (by simp) (by simp)⟩

/-- **C4 (amended).** The current tunnel server's `getQuote` fails loudly:
with TDX disabled it errors; a real-quote generation error is surfaced to
the caller unchanged; and any returned artifact is exactly the one the
TDX device produced — never a substitute.  (The earlier `getQuote`
retained in the same file does substitute the sample artifact; see the
counterexample.) -/
theorem tunnelGetQuote_surfaces_failures (useRealTdx : Bool)
    (nonce iat x25519PublicKey : List Nat)
    (tdxQuote : List Nat → Except String (List Nat))
    (imaLogBytes : Except String (List Nat)) :
    (useRealTdx = false →
      tunnelGetQuote useRealTdx nonce iat x25519PublicKey tdxQuote imaLogBytes
        = Except.error
          "USE_REAL_TDX is not enabled. This server requires TDX attestation.")
    ∧ (∀ e, tdxQuote (computeReportData nonce iat x25519PublicKey)
          = Except.error e →
        useRealTdx = true →
        tunnelGetQuote useRealTdx nonce iat x25519PublicKey tdxQuote imaLogBytes
          = Except.error e)
    ∧ (∀ d, tunnelGetQuote useRealTdx nonce iat x25519PublicKey tdxQuote
          imaLogBytes = Except.ok d →
        tdxQuote (computeReportData nonce iat x25519PublicKey)
          = Except.ok d.quote) := by
  refine ⟨?_, ?_, ?_⟩
  · intro h
    simp [tunnelGetQuote, h]
  · intro e he hu
    simp [tunnelGetQuote, hu, he]
  · intro d hd
    cases hu : useRealTdx with
    | false => simp [tunnelGetQuote, hu] at hd
    | true =>
      rw [hu] at hd
      cases hq : tdxQuote (computeReportData nonce iat x25519PublicKey) with
      | error e => simp [tunnelGetQuote, hq] at hd
      | ok q =>
        cases hi : imaLogBytes with
        | ok ima =>
          simp [tunnelGetQuote, hq, hi] at hd
          rw [← hd]
        | error err =>
          simp [tunnelGetQuote, hq, hi] at hd
          rw [← hd]

/-- Witness for C4's amended theorem: when the TDX device errors, the
current `getQuote` returns exactly that error. -/
theorem tunnelGetQuote_surfaces_failures_witness :
    ((fun _ => Except.error "TDX interface unavailable"
        : List Nat → Except String (List Nat))
      (computeReportData [] [] []) = Except.error "TDX interface unavailable")
    ∧ (true : Bool) = true
    ∧ tunnelGetQuote true [] [] []
        (fun _ => Except.error "TDX interface unavailable")
        (Except.error "no ima log")
      = Except.error "TDX interface unavailable" :=
  ⟨rfl, rfl,
    (tunnelGetQuote_surfaces_failures true [] [] []
      (fun _ => Except.error "TDX interface unavailable")
      (Except.error "no ima log")).2.1 "TDX interface unavailable" rfl rfl⟩

/-- Counterexample to **C4** as stated: the earlier `getQuote` kept in
`backend/tunnel.ts` catches the failure of real quote generation
(`USE_REAL_TDX` enabled, device erroring) and returns the sample artifact
instead of surfacing the error. -/
theorem tunnelGetQuoteLegacy_sample_fallback_cex :
    ((fun _ => Except.error "TDX interface unavailable"
        : List Nat → Except String (List Nat)) [0]
      = Except.error "TDX interface unavailable")
    ∧ tunnelGetQuoteLegacy [1, 2, 3] true [0]
        (fun _ => Except.error "TDX interface unavailable")
      = { quote := [1, 2, 3] } :=
  ⟨rfl, rfl⟩

end RATSnest
